import Mathlib

set_option maxRecDepth 8192

/-!
Verification development for the gitmuse repository.

Shallow embedding, in Lean 4, of the core pipeline of gitmuse:
`gitmuse/core/git_utils.py` (staged-file collection, ignore matching),
`gitmuse/core/diff_analyzer.py` (diff extraction / classification),
`gitmuse/core/message_generator.py` (summarization, prompt assembly,
response extraction), and the configuration defaults of
`gitmuse/config/settings.py` that those functions consult.

Python machinery is modelled explicitly: Python exceptions become
`Except String`, Python dicts become insertion-ordered association
lists, and the external collaborators (the git binary, the filesystem,
the AI backend, the configuration singleton) become explicit
parameters.  Python string operations are modelled over the character
lists underlying `String`, so that every definition evaluates inside
the kernel.  Special characters that the Python source manipulates
(backtick, braces, apostrophe) are written via `Char.ofNat` codes.
-/

/-- Backtick character (code 96), used by the code-fence stripper. -/
def backtickChar : Char := Char.ofNat 96

/-- Opening-brace character (code 123). -/
def lbraceChar : Char := Char.ofNat 123

/-- Closing-brace character (code 125). -/
def rbraceChar : Char := Char.ofNat 125

/-- Apostrophe / single-quote character (code 39). -/
def aposChar : Char := Char.ofNat 39

/-! ## Models of the Python string operations

Implemented over `String.data` so that they reduce in the kernel. -/

/-- Rebuild a `String` from its character list. -/
def strOfChars (cs : List Char) : String := ⟨cs⟩

/-- Python `str.startswith` with a string prefix. -/
def py_startswith (s pre : String) : Bool :=
  pre.data.isPrefixOf s.data

/-- Python `str.endswith` with a string suffix. -/
def py_endswith (s suf : String) : Bool :=
  suf.data.isSuffixOf s.data

/-- Python `c in s` for a single-character needle. -/
def py_contains_char (s : String) (c : Char) : Bool :=
  s.data.contains c

/-- Python slicing `s[:n]` (by characters). -/
def py_take (s : String) (n : Nat) : String :=
  strOfChars (s.data.take n)

/-- Python slicing `s[n:]` (by characters). -/
def py_drop (s : String) (n : Nat) : String :=
  strOfChars (s.data.drop n)

/-- The characters Python `str.strip()` removes (ASCII whitespace). -/
def py_isspace (c : Char) : Bool :=
  c = ' ' || c = '\t' || c = '\n' || c = '\r' ||
    c = Char.ofNat 11 || c = Char.ofNat 12

/-- Python `str.strip()`: whitespace removed from both ends. -/
def py_strip (s : String) : String :=
  strOfChars (((s.data.dropWhile py_isspace).reverse.dropWhile py_isspace).reverse)

/-- Python `str.strip(c)` for a single strip character. -/
def py_strip_char (s : String) (c : Char) : String :=
  strOfChars (((s.data.dropWhile (· = c)).reverse.dropWhile (· = c)).reverse)

/-- Helper for `py_split`: fuel-indexed scan accumulating the current
token (reversed).  Every step consumes at least one character when the
separator is nonempty, so fuel `cs.length + 1` always suffices. -/
def py_split_aux (sep : List Char) : Nat → List Char → List Char → List (List Char)
  | _, acc, [] => [acc.reverse]
  | 0, acc, cs => [acc.reverse ++ cs]
  | fuel + 1, acc, c :: cs =>
    if sep.isPrefixOf (c :: cs) then
      acc.reverse :: py_split_aux sep fuel [] ((c :: cs).drop sep.length)
    else
      py_split_aux sep fuel (c :: acc) cs

/-- Python `s.split(sep)` for a nonempty separator: non-overlapping,
left to right, keeping empty tokens (`"".split(t) == [""]`). -/
def py_split (s sep : String) : List String :=
  (py_split_aux sep.data (s.data.length + 1) [] s.data).map strOfChars

/-- Python `sep.join(xs)`. -/
def py_join_with (sep : String) (xs : List String) : String :=
  strOfChars (List.intercalate sep.data (xs.map String.data))

/-- Python `str.capitalize()`: first character upper-cased, the rest
lower-cased. -/
def py_capitalize (s : String) : String :=
  match s.data with
  | [] => ""
  | c :: rest => strOfChars (c.toUpper :: rest.map Char.toLower)

example : py_split "a\tb" "\t" = ["a", "b"] := by decide
example : py_split "" "\t" = [""] := by decide
example : py_split "a\t" "\t" = ["a", ""] := by decide
example : py_join_with ", " ["a", "b"] = "a, b" := by decide
example : py_strip "  a b\n" = "a b" := by decide
example : py_capitalize "added" = "Added" := by decide

/-! ## git_utils.py: StagedFile and its status validation -/

/-- Embeds `StagedFile` from `gitmuse/core/git_utils.py`: a pydantic
model with a `status` literal and a `file_path`.  Validation of the
status literal is performed by `mk_staged_file` below, mirroring the
pydantic `validate_status` validator. -/
structure StagedFile where
  status : String
  file_path : String
deriving DecidableEq, Repr

/-- The allowed status codes of `StagedFile.status`
(`Literal["A", "M", "D", "R100"]` and the `allowed_statuses` list of
`validate_status`). -/
def allowed_statuses : List String := ["A", "M", "D", "R100"]

/-- Embeds the pydantic validator `StagedFile.validate_status`: returns
the status unchanged when it is allowed, otherwise raises (modelled as
`Except.error`) with the validator message. -/
def validate_status (v : String) : Except String String :=
  if v ∈ allowed_statuses then .ok v
  else .error "Input should be \x27A\x27, \x27M\x27, \x27D\x27 or \x27R100\x27"

/-- Constructing a `StagedFile(status=..., file_path=...)` runs the
status validator; a validation failure is a raised exception. -/
def mk_staged_file (status file_path : String) : Except String StagedFile := do
  let s ← validate_status status
  .ok ⟨s, file_path⟩

/-! ## git_utils.py: get_staged_files

The call to `git diff --cached --name-status` is an external
collaborator; its stdout, already split into lines
(`result.stdout.splitlines()`), is the explicit input.  The Python loop
appends a parsed `StagedFile` for every line with at least two
tab-separated fields and prints a warning for every other line; a
pydantic validation error raised by the constructor propagates out of
the function (there is no try/except around the loop). -/

/-- The warning printed by `get_staged_files` for a line it skips. -/
def staged_warning (line : String) : String :=
  "Warning: Unexpected git diff output: " ++ line

/-- Embeds `get_staged_files` from `gitmuse/core/git_utils.py`,
parameterized by the lines of the git collaborator's output.  Returns
the collected `StagedFile`s together with the warnings printed for
skipped lines; a status-validation failure aborts the whole collection
(exception propagation). -/
def get_staged_files : List String → Except String (List StagedFile × List String)
  | [] => .ok ([], [])
  | line :: rest =>
    match py_split line "\t" with
    | s :: p :: _ => do
      let f ← mk_staged_file s p
      let (fs, ws) ← get_staged_files rest
      .ok (f :: fs, ws)
    | _ => do
      let (fs, ws) ← get_staged_files rest
      .ok (fs, staged_warning line :: ws)

/-! ## git_utils.py: fnmatch and should_ignore

`fnmatch.fnmatch(name, pattern)` from the Python standard library is
modelled as a shell-glob matcher over the whole string: `*` matches any
(possibly empty) sequence of characters, `?` matches any single
character, `[seq]` / `[!seq]` match character classes with `-` ranges,
an unterminated `[` is a literal `[`, and every other character matches
itself.  (On POSIX `os.path.normcase` is the identity, so no case
normalization happens.) -/

/-- Scans a bracket character class: collects the class characters up
to the closing `]`; `none` when the class is unterminated. -/
def scan_class : List Char → Option (List Char × List Char)
  | [] => none
  | c :: cs =>
    if c = ']' then some ([], cs)
    else (fun r => (c :: r.1, r.2)) <$> scan_class cs

/-- Parses the inside of a `[...]` class (the list starts just after
the opening `[`): returns (negated?, class characters, rest of the
pattern).  A leading `!` negates; a `]` in first position is a literal
class member. -/
def glob_bracket (ps : List Char) : Option (Bool × List Char × List Char) :=
  let (neg, ps1) :=
    match ps with
    | c :: t => if c = '!' then (true, t) else (false, ps)
    | [] => (false, ps)
  match ps1 with
  | c :: t =>
    if c = ']' then
      (fun r => (neg, ']' :: r.1, r.2)) <$> scan_class t
    else
      (fun r => (neg, r.1, r.2)) <$> scan_class ps1
  | [] => none

/-- Does character `c` belong to the bracket class `cls`?  Triples
`x - y` denote ranges; other characters are literals. -/
def class_match : List Char → Char → Bool
  | x :: '-' :: y :: rest, c => (x ≤ c && c ≤ y) || class_match rest c
  | x :: rest, c => x = c || class_match rest c
  | [], _ => false

/-- Core glob matcher: `glob_match fuel pattern name`.  Fuel-indexed
for termination; every recursive call strictly decreases
`pattern.length + name.length`, so fuel `pattern.length + name.length + 1`
is always sufficient. -/
def glob_match : Nat → List Char → List Char → Bool
  | 0, _, _ => false
  | _ + 1, [], [] => true
  | _ + 1, [], _ :: _ => false
  | fuel + 1, '*' :: ps, ns =>
    glob_match fuel ps ns ||
      (match ns with
       | [] => false
       | _ :: ns2 => glob_match fuel ('*' :: ps) ns2)
  | _ + 1, '?' :: _, [] => false
  | fuel + 1, '?' :: ps, _ :: ns => glob_match fuel ps ns
  | fuel + 1, '[' :: ps, ns =>
    (match glob_bracket ps with
     | some (neg, cls, rest) =>
       (match ns with
        | [] => false
        | n :: ns2 => (class_match cls n != neg) && glob_match fuel rest ns2)
     | none =>
       -- unterminated class: `[` is a literal character
       (match ns with
        | [] => false
        | n :: ns2 => ('[' = n) && glob_match fuel ps ns2))
  | _ + 1, _ :: _, [] => false
  | fuel + 1, p :: ps, n :: ns => (p = n) && glob_match fuel ps ns

/-- Embeds `fnmatch.fnmatch(name, pattern)` (argument order as in
Python: the name first, the pattern second). -/
def fnmatch (name pattern : String) : Bool :=
  glob_match (pattern.data.length + name.data.length + 1) pattern.data name.data

/-- Embeds `os.path.basename`: the part after the last `/`. -/
def basename (p : String) : String :=
  (py_split p "/").getLastD ""

/-- Embeds `should_ignore` from `gitmuse/core/git_utils.py`.  A path
that is among the staged files' paths is never ignored; otherwise the
path is ignored when any pattern matches it under one of the four
tests of the source (slash-anchored, plain, separator-containing,
basename). -/
def should_ignore (file_path : String) (ignore_patterns : List String)
    (staged_files : List StagedFile) : Bool :=
  if file_path ∈ staged_files.map (·.file_path) then false
  else ignore_patterns.any fun pattern =>
    (py_startswith pattern "/" && fnmatch file_path (py_drop pattern 1))
    || fnmatch file_path pattern
    || (py_contains_char pattern '/' && fnmatch file_path pattern)
    || fnmatch (basename file_path) pattern

example : fnmatch "c.lock" "*.lock" = true := by decide
example : fnmatch "dir/c.lock" "*.lock" = true := by decide
example : fnmatch "ab" "a?" = true := by decide
example : fnmatch "ab" "a[bc]" = true := by decide
example : fnmatch "ad" "a[bc]" = false := by decide
example : fnmatch "ad" "a[!bc]" = true := by decide
example : should_ignore "c.lock" ["*.lock"] [] = true := by decide
example : should_ignore "c.lock" ["*.lock"] [⟨"D", "c.lock"⟩] = false := by decide
example : should_ignore "src/a.py" ["/src/*.py"] [] = true := by decide

/-! ## diff_analyzer.py: GitDiffAnalyzer -/

/-- Embeds `ADDITIONAL_IGNORE_PATTERNS` from
`gitmuse/core/diff_analyzer.py`. -/
def ADDITIONAL_IGNORE_PATTERNS : List String :=
  ["poetry.lock", "package-lock.json", "yarn.lock", "bun.lock"]

/-- Embeds the `GitDiffAnalyzer` state: the ignore patterns (already
extended with the built-in lockfile patterns by `__init__`) and the
staged files. -/
structure GitDiffAnalyzer where
  ignore_patterns : List String
  staged_files : List StagedFile

/-- Embeds `GitDiffAnalyzer.__init__`: unions the supplied patterns
with `ADDITIONAL_IGNORE_PATTERNS` (set union modelled as list append;
`should_ignore` is membership-insensitive to duplicates and order). -/
def GitDiffAnalyzer.init (ignore_patterns : List String)
    (staged_files : List StagedFile) : GitDiffAnalyzer :=
  ⟨ignore_patterns ++ ADDITIONAL_IGNORE_PATTERNS, staged_files⟩

/-- Embeds `GitDiffAnalyzer.get_diff`.  The source sets
`filtered_diff = get_full_diff()` — the raw output of
`git diff --cached`, passed here as the explicit collaborator input
`full_diff` — and then walks the staged files, collecting into
`ignored_files` every path for which `should_ignore` holds (the diff
text itself is returned unfiltered). -/
def GitDiffAnalyzer.get_diff (a : GitDiffAnalyzer) (full_diff : String) :
    String × List String :=
  (full_diff,
    a.staged_files.filterMap fun f =>
      if should_ignore f.file_path a.ignore_patterns a.staged_files then
        some f.file_path
      else none)

deriving instance DecidableEq for Except

/-- One classified entry of `analyze_diff` (`{"file": ..., "content": ...}`). -/
structure ChangeEntry where
  file : String
  content : String
deriving DecidableEq, Repr

/-- The `changes` dictionary of `analyze_diff`: a Python dict from
category name to entry list, modelled as an insertion-ordered
association list. -/
abbrev ChangesDict := List (String × List ChangeEntry)

/-- The initial `changes` dictionary of `analyze_diff`. -/
def initial_changes : ChangesDict :=
  [("added", []), ("modified", []), ("deleted", []), ("renamed", [])]

/-- Embeds `GitDiffAnalyzer._append_change`: appends
`{"file": file, "content": "\n".join(content).strip()}` to
`changes[status]`.  Indexing a Python dict with an absent key raises
`KeyError`, modelled as `Except.error`. -/
def append_change (changes : ChangesDict) (status file : String)
    (content : List String) : Except String ChangesDict :=
  if (changes.lookup status).isSome then
    .ok (changes.map fun kv =>
      if kv.1 = status then
        (kv.1, kv.2 ++ [⟨file, py_strip (py_join_with "\n" content)⟩])
      else kv)
  else .error ("KeyError: " ++ status)

/-- The line-scanning loop of `GitDiffAnalyzer.analyze_diff`, with the
loop state (`current_file`, `current_status`, `current_content`,
`changes`) explicit.  Mirrors the source branch by branch; note that
the source resets `current_content` when a `diff --git` header starts a
new record but never resets `current_status`. -/
def analyze_diff_loop : List String → String → String → List String → ChangesDict →
    Except String ChangesDict
  | [], cur_file, cur_status, cur_content, changes =>
    if cur_file ≠ "" then append_change changes cur_status cur_file cur_content
    else .ok changes
  | line :: rest, cur_file, cur_status, cur_content, changes =>
    if py_startswith line "diff --git" then
      if cur_file ≠ "" then do
        let changes2 ← append_change changes cur_status cur_file cur_content
        analyze_diff_loop rest ((py_split line " b/").getLastD "") cur_status [] changes2
      else
        analyze_diff_loop rest ((py_split line " b/").getLastD "") cur_status [] changes
    else if py_startswith line "new file" then
      analyze_diff_loop rest cur_file "added" cur_content changes
    else if py_startswith line "deleted file" then
      analyze_diff_loop rest cur_file "deleted" cur_content changes
    else if py_startswith line "rename from" then
      analyze_diff_loop rest cur_file "renamed" cur_content changes
    else if py_startswith line "index" then
      analyze_diff_loop rest cur_file
        (if cur_status = "" then "modified" else cur_status) cur_content changes
    else
      analyze_diff_loop rest cur_file cur_status (cur_content ++ [line]) changes

/-- Embeds `GitDiffAnalyzer.analyze_diff` (also exposed as the
module-level helper `analyze_diff`, which runs it on a fresh
analyzer): splits the diff text on newlines and scans it. -/
def analyze_diff (diff : String) : Except String ChangesDict :=
  analyze_diff_loop (py_split diff "\n") "" "" [] initial_changes

/-! ## Model of the git collaborator's `git diff --cached` output

`get_full_diff` shells out to `git diff --cached`; the text it returns
is produced by git, not by this repository.  The model below renders,
for each staged file, one file block in git's documented unified-diff
format (header `diff --git a/<path> b/<path>`, then `new file mode` /
`deleted file mode` / `rename from`+`rename to` markers according to
the status, an `index` line where git emits one, and a conventional
hunk).  Blocks are concatenated in staged order, each line terminated
by a newline. -/

/-- The lines git prints for one staged file in `git diff --cached`. -/
def git_file_diff_block (f : StagedFile) : List String :=
  if f.status = "A" then
    ["diff --git a/" ++ f.file_path ++ " b/" ++ f.file_path,
     "new file mode 100644",
     "index 0000000..1111111",
     "--- /dev/null",
     "+++ b/" ++ f.file_path,
     "@@ -0,0 +1 @@",
     "+content"]
  else if f.status = "D" then
    ["diff --git a/" ++ f.file_path ++ " b/" ++ f.file_path,
     "deleted file mode 100644",
     "index 1111111..0000000",
     "--- a/" ++ f.file_path,
     "+++ /dev/null",
     "@@ -1 +0,0 @@",
     "-content"]
  else if f.status = "R100" then
    ["diff --git a/" ++ f.file_path ++ " b/" ++ f.file_path,
     "similarity index 100%",
     "rename from " ++ f.file_path,
     "rename to " ++ f.file_path]
  else
    ["diff --git a/" ++ f.file_path ++ " b/" ++ f.file_path,
     "index 1111111..2222222 100644",
     "--- a/" ++ f.file_path,
     "+++ b/" ++ f.file_path,
     "@@ -1 +1 @@",
     "-old",
     "+new"]

/-- Model of `get_full_diff` (the git collaborator): the concatenation
of the per-file blocks, every line newline-terminated. -/
def git_full_diff (files : List StagedFile) : String :=
  py_join_with "" ((files.map git_file_diff_block).flatten.map (· ++ "\n"))

/-- The spec's status→category mapping
(A→added, M→modified, D→deleted, R*→renamed). -/
def status_category (status : String) : String :=
  if status = "A" then "added"
  else if status = "M" then "modified"
  else if status = "D" then "deleted"
  else "renamed"

example :
    analyze_diff (git_full_diff [⟨"A", "a.py"⟩]) =
      .ok [("added",
             [⟨"a.py", "--- /dev/null\n+++ b/a.py\n@@ -0,0 +1 @@\n+content"⟩]),
           ("modified", []), ("deleted", []), ("renamed", [])] := by decide

example :
    analyze_diff (git_full_diff [⟨"M", "b.py"⟩]) =
      .ok [("added", []),
           ("modified",
             [⟨"b.py", "--- a/b.py\n+++ b/b.py\n@@ -1 +1 @@\n-old\n+new"⟩]),
           ("deleted", []), ("renamed", [])] := by decide


/-! ## A model of Python JSON values and `json.loads`

`message_generator.py` calls `json.loads` from the Python standard
library.  JSON values are modelled by `Json` below (numbers keep their
source literal, which is also what Python renders for them inside
f-strings in the cases exercised here); objects are insertion-ordered
association lists with the Python dict update rule for duplicate keys
(the later value replaces the earlier one, in place). -/

/-- Model of a parsed Python JSON value. -/
inductive Json where
  | null
  | bool (b : Bool)
  | num (lit : String)
  | str (s : String)
  | arr (elems : List Json)
  | obj (members : List (String × Json))
deriving Repr

/-- Python dict insertion: a duplicate key replaces the stored value in
place, otherwise the pair is appended. -/
def obj_insert (kvs : List (String × Json)) (k : String) (v : Json) :
    List (String × Json) :=
  if (kvs.lookup k).isSome then
    kvs.map fun kv => if kv.1 = k then (k, v) else kv
  else kvs ++ [(k, v)]

/-- JSON whitespace. -/
def json_ws (c : Char) : Bool :=
  c = ' ' || c = '\t' || c = '\n' || c = '\r'

/-- Skip JSON whitespace. -/
def skip_ws (cs : List Char) : List Char :=
  cs.dropWhile json_ws

/-- Hex digit value. -/
def hex_val (c : Char) : Option Nat :=
  if c.isDigit then some (c.toNat - '0'.toNat)
  else if 'a' ≤ c ∧ c ≤ 'f' then some (c.toNat - 'a'.toNat + 10)
  else if 'A' ≤ c ∧ c ≤ 'F' then some (c.toNat - 'A'.toNat + 10)
  else none

/-- Parses the body of a JSON string literal (the opening quote already
consumed): the decoded characters and the rest after the closing quote.
Handles the JSON escapes; raw control characters are rejected (strict
`json.loads` default). -/
def parse_jstring : List Char → Option (List Char × List Char)
  | [] => none
  | c :: cs =>
    if c = '"' then some ([], cs)
    else if c = '\\' then
      match cs with
      | 'u' :: h1 :: h2 :: h3 :: h4 :: cs2 =>
        match hex_val h1, hex_val h2, hex_val h3, hex_val h4 with
        | some a, some b, some c3, some d =>
          (fun r => (Char.ofNat (((a * 16 + b) * 16 + c3) * 16 + d) :: r.1, r.2)) <$>
            parse_jstring cs2
        | _, _, _, _ => none
      | e :: cs2 =>
        match
          (if e = '"' then some '"'
           else if e = '\\' then some '\\'
           else if e = '/' then some '/'
           else if e = 'b' then some (Char.ofNat 8)
           else if e = 'f' then some (Char.ofNat 12)
           else if e = 'n' then some '\n'
           else if e = 'r' then some '\r'
           else if e = 't' then some '\t'
           else none) with
        | some d => (fun r => (d :: r.1, r.2)) <$> parse_jstring cs2
        | none => none
      | [] => none
    else if c.toNat < 32 then none
    else (fun r => (c :: r.1, r.2)) <$> parse_jstring cs

/-- Lexes a JSON number, returning its literal characters and the rest. -/
def parse_jnumber (cs : List Char) : Option (List Char × List Char) :=
  let (sign, cs1) :=
    match cs with
    | '-' :: t => (['-'], t)
    | _ => (([] : List Char), cs)
  let (digs, cs2) := cs1.span Char.isDigit
  if digs.isEmpty then none
  else
    let (frac, cs3) :=
      match cs2 with
      | '.' :: t =>
        let (fd, r) := t.span Char.isDigit
        if fd.isEmpty then (([] : List Char), cs2) else ('.' :: fd, r)
      | _ => (([] : List Char), cs2)
    let (expn, cs4) :=
      match cs3 with
      | e :: t =>
        if e = 'e' ∨ e = 'E' then
          let (sgn, t2) :=
            match t with
            | s :: t2 => if s = '+' ∨ s = '-' then ([s], t2) else (([] : List Char), t)
            | [] => (([] : List Char), t)
          let (ed, r) := t2.span Char.isDigit
          if ed.isEmpty then (([] : List Char), cs3) else (e :: (sgn ++ ed), r)
        else (([] : List Char), cs3)
      | [] => (([] : List Char), cs3)
    some (sign ++ digs ++ frac ++ expn, cs4)

mutual

/-- Fuel-indexed JSON value parser (the input starts at a
non-whitespace position). -/
def parse_jvalue : Nat → List Char → Option (Json × List Char)
  | 0, _ => none
  | fuel + 1, cs =>
    match cs with
    | [] => none
    | c :: cs1 =>
      if c = '"' then
        (fun r => (Json.str (strOfChars r.1), r.2)) <$> parse_jstring cs1
      else if c = lbraceChar then parse_jobj fuel (skip_ws cs1)
      else if c = '[' then parse_jarr fuel (skip_ws cs1)
      else
        match cs with
        | 't' :: 'r' :: 'u' :: 'e' :: r => some (.bool true, r)
        | 'f' :: 'a' :: 'l' :: 's' :: 'e' :: r => some (.bool false, r)
        | 'n' :: 'u' :: 'l' :: 'l' :: r => some (.null, r)
        | _ =>
          if c = '-' ∨ c.isDigit then
            (fun r => (Json.num (strOfChars r.1), r.2)) <$> parse_jnumber cs
          else none

/-- Parses an object body right after `{` (whitespace skipped). -/
def parse_jobj : Nat → List Char → Option (Json × List Char)
  | 0, _ => none
  | fuel + 1, cs =>
    match cs with
    | [] => none
    | c :: cs1 =>
      if c = rbraceChar then some (.obj [], cs1)
      else parse_jmembers fuel cs []

/-- Parses object members (at the opening quote of a key). -/
def parse_jmembers : Nat → List Char → List (String × Json) →
    Option (Json × List Char)
  | 0, _, _ => none
  | fuel + 1, cs, acc =>
    match cs with
    | '"' :: cs1 =>
      match parse_jstring cs1 with
      | some (kcs, cs2) =>
        match skip_ws cs2 with
        | ':' :: cs3 =>
          match parse_jvalue fuel (skip_ws cs3) with
          | some (v, cs4) =>
            let acc2 := obj_insert acc (strOfChars kcs) v
            match skip_ws cs4 with
            | ',' :: cs5 => parse_jmembers fuel (skip_ws cs5) acc2
            | c2 :: cs5 =>
              if c2 = rbraceChar then some (.obj acc2, cs5) else none
            | [] => none
          | none => none
        | _ => none
      | none => none
    | _ => none

/-- Parses an array body right after `[` (whitespace skipped). -/
def parse_jarr : Nat → List Char → Option (Json × List Char)
  | 0, _ => none
  | fuel + 1, cs =>
    match cs with
    | [] => none
    | c :: cs1 =>
      if c = ']' then some (.arr [], cs1)
      else parse_jelems fuel cs []

/-- Parses array elements (at the start of a value). -/
def parse_jelems : Nat → List Char → List Json → Option (Json × List Char)
  | 0, _, _ => none
  | fuel + 1, cs, acc =>
    match parse_jvalue fuel cs with
    | some (v, cs2) =>
      match skip_ws cs2 with
      | ',' :: cs3 => parse_jelems fuel (skip_ws cs3) (acc ++ [v])
      | ']' :: cs3 => some (.arr (acc ++ [v]), cs3)
      | _ => none
    | none => none

end

/-- Model of `json.loads`: parses the whole string as one JSON value
(whitespace allowed around it); `none` models a raised
`json.JSONDecodeError`. -/
def json_loads (s : String) : Option Json :=
  match parse_jvalue (s.data.length * 2 + 8) (skip_ws s.data) with
  | some (j, rest) => if (skip_ws rest).isEmpty then some j else none
  | none => none

example : (json_loads "\x7b\"a\": 1\x7d").isSome = true := by decide
example : (json_loads "[1, \"x\", true, null]").isSome = true := by decide
example : (json_loads "!!!").isNone = true := by decide
example : (json_loads "lorem ipsum").isNone = true := by decide
example : (json_loads " \"s\" ").isSome = true := by decide
example : (json_loads "\x7b\x7d").isSome = true := by decide
example : (json_loads "\x7b\"incomplete\":").isNone = true := by decide

/-! ## message_generator.py: format_commit_message -/

/-- CPython's default recursion limit; rendering a value nested deeper
than this raises `RecursionError` in Python, and the model returns the
fuel-exhausted rendering (never reached by values `json_loads` can
produce from realistic inputs). -/
def PY_RECURSION_LIMIT : Nat := 1000

/-- Model of Python `str(x)` / f-string interpolation for a JSON value
(`repr` is used for elements nested inside containers, per Python's
container rendering; string escaping inside `repr` is simplified to
plain quoting).  Fuel-indexed for structural termination. -/
def pyRender : Nat → Bool → Json → String
  | 0, _, _ => ""
  | _, r, .str s =>
    if r then strOfChars [aposChar] ++ s ++ strOfChars [aposChar] else s
  | _, _, .num lit => lit
  | _, _, .bool b => if b then "True" else "False"
  | _, _, .null => "None"
  | fuel + 1, _, .arr xs =>
    "[" ++ py_join_with ", " (xs.map fun x => pyRender fuel true x) ++ "]"
  | fuel + 1, _, .obj kvs =>
    strOfChars [lbraceChar] ++
      py_join_with ", "
        (kvs.map fun kv =>
          strOfChars [aposChar] ++ kv.1 ++ strOfChars [aposChar] ++ ": " ++
            pyRender fuel true kv.2) ++
      strOfChars [rbraceChar]

/-- Python `str(x)` as used by the f-strings of
`format_commit_message`. -/
def pyStr (j : Json) : String := pyRender PY_RECURSION_LIMIT false j

/-- Python `for x in obj` as used over the `changes` value of a body
category: lists iterate their elements, strings their characters,
dicts their keys; other values raise `TypeError`. -/
def py_iterate : Json → Except String (List String)
  | .arr xs => .ok (xs.map pyStr)
  | .str s => .ok (s.data.map fun c => strOfChars [c])
  | .obj kvs => .ok (kvs.map Prod.fst)
  | _ => .error "TypeError: object is not iterable"

/-- One iteration of the `for category, content in body.items()` loop
of `format_commit_message` (without the trailing newline the loop adds
after each category). -/
def render_category (category : String) (content : Json) : Except String String :=
  match content with
  | .obj cv => do
    let emoji := pyStr ((cv.lookup "emoji").getD (.str "📝"))
    let chs ← py_iterate ((cv.lookup "changes").getD (.arr []))
    .ok (emoji ++ " " ++ category ++ ":\n" ++
      py_join_with "" (chs.map fun c => "- " ++ c ++ "\n"))
  | .arr xs =>
    .ok ("📝 " ++ category ++ ":\n" ++
      py_join_with "" (xs.map fun c => "- " ++ pyStr c ++ "\n"))
  | other => .ok ("📝 " ++ category ++ ": " ++ pyStr other ++ "\n")

/-- The whole dict-shaped-body loop of `format_commit_message`
(each category block followed by the loop's extra newline). -/
def render_categories : List (String × Json) → Except String String
  | [] => .ok ""
  | (category, content) :: rest => do
    let block ← render_category category content
    let restS ← render_categories rest
    .ok (block ++ "\n" ++ restS)

/-- Embeds `format_commit_message` from
`gitmuse/core/message_generator.py`.  A plain string is returned as is;
a dict yields `title[:50]`, the rendered body (all three shapes:
category dict, flat list, plain string; anything else contributes
nothing) and the summary, joined with blank lines and finally
stripped.  `commit_data.get('title', ...)[:50]` slices strings and
lists (a list title keeps its first 50 elements and is rendered by the
f-string); an unsliceable title (number, boolean, null, dict) raises
`TypeError`; a value that is neither str nor dict raises
`AttributeError` (`.get` missing). -/
def format_commit_message (commit_data : Json) : Except String String :=
  match commit_data with
  | .str s => .ok s
  | .obj kvs => do
    let title ←
      match (kvs.lookup "title").getD (.str "Update files") with
      | .str t => Except.ok (py_take t 50)
      | .arr xs => Except.ok (pyStr (.arr (xs.take 50)))
      | _ => Except.error "TypeError: object is not subscriptable"
    let body := (kvs.lookup "body").getD (.obj [])
    let summary := (kvs.lookup "summary").getD
      (.str "Changes were made to the codebase.")
    let bodyS ←
      match body with
      | .obj cats => render_categories cats
      | .arr items => Except.ok (py_join_with "" (items.map fun i => pyStr i ++ "\n") ++ "\n")
      | .str s => Except.ok (s ++ "\n\n")
      | _ => Except.ok ""
    .ok (py_strip (title ++ "\n\n" ++ bodyS ++ pyStr summary ++ "\n"))
  | _ => .error "AttributeError: object has no attribute get"

/-! ## message_generator.py: extract_message_from_raw_response -/

/-- Embeds `re.sub(r'<fence>(?:json)?\s*', '', raw)` where `<fence>` is
three backticks: scans left to right; at every occurrence of three
backticks it removes them, an optional `json`, and the following
whitespace run; all other characters are kept.  Fuel-indexed (each step
consumes at least one character). -/
def strip_fences_aux : Nat → List Char → List Char
  | 0, cs => cs
  | _, [] => []
  | fuel + 1, c :: cs =>
    if c = backtickChar then
      match cs with
      | c2 :: c3 :: rest =>
        if c2 = backtickChar ∧ c3 = backtickChar then
          let rest2 :=
            match rest with
            | 'j' :: 's' :: 'o' :: 'n' :: r => r
            | _ => rest
          strip_fences_aux fuel (rest2.dropWhile py_isspace)
        else c :: strip_fences_aux fuel cs
      | _ => c :: strip_fences_aux fuel cs
    else c :: strip_fences_aux fuel cs

/-- The code-fence stripping step of `extract_message_from_raw_response`. -/
def strip_code_fences (s : String) : String :=
  strOfChars (strip_fences_aux (s.data.length + 1) s.data)

/-- The emoji prefixes recognized by the freeform scan
(`line.startswith(('💎', '✨', '⬆️', '🐛', '♻️', '📝', '🔧', '🚀'))`). -/
def emoji_prefixes : List String :=
  ["💎", "✨", "⬆️", "🐛", "♻️", "📝", "🔧", "🚀"]

/-- State of the freeform line scan: `title`, `body`, `summary`,
`current_section`. -/
structure ScanState where
  title : String
  body : List String
  summary : String
  current_section : String
deriving DecidableEq, Repr

/-- One iteration of the freeform scan loop of
`extract_message_from_raw_response`. -/
def scan_step (st : ScanState) (line0 : String) : ScanState :=
  let line := py_strip line0
  if line = "" then st
  else if emoji_prefixes.any (py_startswith line ·) then
    if st.title ≠ "" then { st with current_section := line }
    else { st with title := line }
  else if py_startswith line "-" then
    { st with body := st.body ++ [st.current_section ++ "\n" ++ line] }
  else if st.summary = "" then { st with summary := line }
  else st

/-- The freeform fallback of `extract_message_from_raw_response`: scan
the (already fence-stripped) text line by line, then assemble
title/body/summary; when nothing structured was found, fall back to the
raw (cleaned) text itself.  The result is stripped. -/
def scan_fallback (cleaned : String) : String :=
  let st := (py_split cleaned "\n").foldl scan_step ⟨"", [], "", ""⟩
  let formatted :=
    (if st.title ≠ "" then st.title ++ "\n\n" else "") ++
    py_join_with "\n" st.body ++
    (if st.summary ≠ "" then "\n\n" ++ st.summary else "")
  if py_strip formatted = "" then py_strip cleaned else py_strip formatted

/-- Embeds `extract_message_from_raw_response` from
`gitmuse/core/message_generator.py`: strip code-fence markers and
surrounding backticks, try `json.loads` (a decode error is caught), and
on decode failure run the freeform scan; errors raised by
`format_commit_message` on a successfully parsed value propagate. -/
def extract_message_from_raw_response (raw_response : String) : Except String String :=
  let cleaned := py_strip_char (strip_code_fences raw_response) backtickChar
  match json_loads cleaned with
  | some j => format_commit_message j
  | none => .ok (scan_fallback cleaned)


/-! ## settings.py: the configuration values the core consults -/

/-- Embeds the `commit` section of a gitmuse configuration
(`CommitConfig` in `gitmuse/config/settings.py`). -/
structure CommitConfig where
  style : String
  maxLength : Nat
  includeScope : Bool
  includeBody : Bool
  includeFooter : Bool
  conventionalCommitTypes : List (String × String)

/-- The `commit` section of `DEFAULT_CONFIG` in
`gitmuse/config/settings.py` (in particular `maxLength: 72`). -/
def DEFAULT_COMMIT_CONFIG : CommitConfig :=
  { style := "conventional"
    maxLength := 72
    includeScope := true
    includeBody := true
    includeFooter := true
    conventionalCommitTypes :=
      [("feat", "✨"), ("fix", "🐛"), ("docs", "📝"), ("style", "💎"),
       ("refactor", "♻️"), ("perf", "⚡"), ("test", "🧪"), ("build", "🏗️"),
       ("ci", "🚀"), ("chore", "🧹")] }

/-- Embeds `Config.get_max_message_length`: the configured
`commit.maxLength`. -/
def get_max_message_length (c : CommitConfig) : Nat := c.maxLength

/-! ## message_generator.py: summarize_changes -/

/-- Embeds the pydantic model `Changes` of
`gitmuse/core/message_generator.py`. -/
structure Changes where
  files_summary : String
  changes_summary : String
  detailed_changes : List String
deriving DecidableEq, Repr

/-- Embeds `os.path.splitext(...)[1]`: the extension (with its dot) of
the path's basename; leading dots of the basename do not start an
extension. -/
def splitext_ext (p : String) : String :=
  let base := (py_split p "/").getLastD ""
  let rest := base.data.dropWhile (· = '.')
  if rest.contains '.' then "." ++ ((py_split (strOfChars rest) ".").getLastD "")
  else ""

/-- Embeds `generate_detailed_changes`: one description line per
classified entry, phrased by a file-kind bucket derived from the
extension.  (Entries built by `_append_change` always carry a
`"content"` key, so the `if "content" in item` branch of the source is
always the taken one.) -/
def generate_detailed_changes (changes : ChangesDict) : List String :=
  (changes.map fun kv =>
    kv.2.map fun item =>
      let ext := splitext_ext item.file
      let file_type :=
        if ext ∈ [".py", ".js", ".ts", ".cpp", ".java"] then "code"
        else if ext ∈ [".md", ".txt", ".rst"] then "documentation"
        else if ext ∈ [".json", ".yaml", ".yml", ".toml"] then "configuration"
        else "unknown"
      py_capitalize kv.1 ++ " in " ++ file_type ++ " file " ++ item.file ++ ": " ++
        py_take item.content 100 ++ "...").flatten

/-- Embeds `summarize_changes`.  `list(set(...))` collects the distinct
changed files; CPython's set iteration order is hash-dependent, modelled
here as first-seen order. -/
def summarize_changes (changes : ChangesDict) : Changes :=
  let files_changed := (((changes.map Prod.snd).flatten).map (·.file)).eraseDups
  let files_summary :=
    py_join_with ", " (files_changed.take 5) ++
      (if files_changed.length > 5 then
        " and " ++ toString (files_changed.length - 5) ++ " more files"
      else "")
  let changes_summary :=
    py_join_with ", "
      ((changes.filter fun kv => kv.2 ≠ []).map fun kv =>
        py_capitalize kv.1 ++ ": " ++ toString kv.2.length ++ " file(s)")
  { files_summary := files_summary
    changes_summary := changes_summary
    detailed_changes := generate_detailed_changes changes }

example :
    (summarize_changes initial_changes) = ⟨"", "", []⟩ := by decide

example :
    (summarize_changes
      [("added", [⟨"a.py", "+x"⟩]), ("modified", [⟨"b.md", "-y"⟩]),
       ("deleted", []), ("renamed", [])]).changes_summary =
    "Added: 1 file(s), Modified: 1 file(s)" := by decide

/-! ## message_generator.py: templates and prompt assembly -/

/-- Embeds `load_default_template` (the braces of the Python literal are
written `\x7b`/`\x7d`; `\x7b\x7b` is a format-escaped literal brace). -/
def load_default_template : String :=
  "\n    Generate a structured commit message for the following changes, following the semantic commit and gitemoji conventions:\n\n    Files changed: \x7bfiles_summary\x7d\n    Summary: \x7bchanges_summary\x7d\n\n    Detailed changes:\n    \x7bdetailed_changes\x7d\n\n    Requirements:\n    1. Title: Maximum 50 characters, starting with an appropriate gitemoji, followed by the semantic commit type and a brief description.\n    2. Body: Organize changes into categories. Each category should have an appropriate emoji and 2-3 bullet points summarizing key changes.\n    3. Summary: A brief sentence summarizing the overall impact of the changes.\n    4. For small changes (e.g., adding or removing a single line), focus on the purpose of the change rather than just describing the modification.\n\n    Use one of the following commit types: \x7bkeywords\x7d\n\n    IMPORTANT: Respond ONLY with a JSON object in the following format. Do not include any other text or explanations:\n    \x7b\x7b\n        \"title\": \"Your commit message title here\",\n        \"body\": \x7b\x7b\n            \"Category1\": \x7b\x7b\n                \"emoji\": \"🔧\",\n                \"changes\": [\n                    \"First change in category 1\",\n                    \"Second change in category 1\"\n                ]\n            \x7d\x7d,\n            \"Category2\": \x7b\x7b\n                \"emoji\": \"✨\",\n                \"changes\": [\n                    \"First change in category 2\",\n                    \"Second change in category 2\"\n                ]\n            \x7d\x7d\n        \x7d\x7d,\n        \"summary\": \"A brief summary of the overall changes and their impact.\"\n    \x7d\x7d\n\n    Ensure that each category and change is relevant and specific to the changes provided. Use appropriate and varied emojis for different categories.\n    For very small changes, focus on the intent or purpose of the change, not just the literal modification.\n    IMPORTANT: Provide ONLY the JSON response, no additional text or explanations.\n    "

/-- Model of Python `str.format` with keyword arguments, restricted to
the plain `\x7bname\x7d` placeholders the templates use: `\x7b\x7b` and
`\x7d\x7d` are literal braces, an unknown placeholder name raises
`KeyError`, and a stray unmatched brace raises `ValueError`.
Fuel-indexed (each step consumes at least one character). -/
def py_format_aux (vars : List (String × String)) :
    Nat → List Char → Except String (List Char)
  | 0, cs => .ok cs
  | _, [] => .ok []
  | fuel + 1, c :: cs =>
    if c = lbraceChar then
      match cs with
      | c2 :: cs2 =>
        if c2 = lbraceChar then (lbraceChar :: ·) <$> py_format_aux vars fuel cs2
        else
          let name := cs.takeWhile fun ch => ch ≠ rbraceChar ∧ ch ≠ lbraceChar
          match cs.dropWhile (fun ch => ch ≠ rbraceChar ∧ ch ≠ lbraceChar) with
          | r :: rest2 =>
            if r = rbraceChar then
              match vars.lookup (strOfChars name) with
              | some v => (fun t => v.data ++ t) <$> py_format_aux vars fuel rest2
              | none => .error ("KeyError: " ++ strOfChars name)
            else .error "ValueError: unexpected opening brace in field name"
          | [] => .error "ValueError: Single opening brace encountered in format string"
      | [] => .error "ValueError: Single opening brace encountered in format string"
    else if c = rbraceChar then
      match cs with
      | c2 :: cs2 =>
        if c2 = rbraceChar then (rbraceChar :: ·) <$> py_format_aux vars fuel cs2
        else .error "ValueError: Single closing brace encountered in format string"
      | [] => .error "ValueError: Single closing brace encountered in format string"
    else (c :: ·) <$> py_format_aux vars fuel cs

/-- Python `template.format(**vars)`. -/
def py_format (template : String) (vars : List (String × String)) :
    Except String String :=
  strOfChars <$> py_format_aux vars (template.data.length + 1) template.data

/-! ## message_generator.py: the generate pipeline

The collaborators `generate_commit_message` touches — the `CONFIG`
singleton's getters (which raise `ConfigError` on missing keys), the
filesystem lookup of `templates/<provider>_template.txt`, the Ollama
prompt wrapper (which reads `CONFIG`), the provider-config construction
and the backend call itself — are collected in an explicit environment.
-/

/-- The external collaborators of the generate pipeline. -/
structure GenEnv where
  get_conventional_commit_types : Except String (List (String × String))
  get_ai_provider : Except String String
  get_commit_message_template : Except String String
  template_file : String → Option String
  ollama_wrap : String → String
  provider_setup : Except String Unit
  backend : String → Except String String

/-- Embeds `load_template`: a `templates/<provider>_template.txt` file
wins; otherwise openai gets the default template, ollama the
llama-wrapped default, and an unknown provider the default with a
warning. -/
def load_template (env : GenEnv) (provider : String) : String :=
  match env.template_file provider with
  | some content => content
  | none =>
    if provider = "openai" then load_default_template
    else if provider = "ollama" then env.ollama_wrap load_default_template
    else load_default_template

/-- Embeds `create_prompt_content`: build the keyword list from the
configured commit types, pick the template (custom when
`use_default_template` is false, otherwise the provider's), and format
it with the summary fields. -/
def create_prompt_content (env : GenEnv) (changes : Changes)
    (use_default_template : Bool) (custom_template : String) :
    Except String String := do
  let commit_types ← env.get_conventional_commit_types
  let keywords := py_join_with ", " (commit_types.map fun vt => vt.2 ++ " " ++ vt.1)
  let provider0 ← env.get_ai_provider
  let provider := if provider0 = "" then "ollama" else provider0
  let template :=
    if use_default_template = false then custom_template
    else load_template env provider
  let detailed := py_join_with "\n" changes.detailed_changes
  py_format template
    [("files_summary", changes.files_summary),
     ("changes_summary", changes.changes_summary),
     ("detailed_changes", detailed),
     ("keywords", keywords)]

/-- Embeds `get_provider` (reduced to its raising behavior and the
chosen provider name): the name defaults to the configured provider, an
unknown name raises `ValueError`, and building the provider's config
object consults further configuration getters (`provider_setup`). -/
def get_provider_name (env : GenEnv) (provider : Option String) :
    Except String String := do
  let p ←
    match provider with
    | some s => if s = "" then env.get_ai_provider else Except.ok s
    | none => env.get_ai_provider
  if p = "openai" ∨ p = "ollama" then do
    let _ ← env.provider_setup
    .ok p
  else .error ("Unsupported AI provider: " ++ p)

/-- The body of the `try` block of `generate_commit_message`, step by
step as in the source: classify the diff, summarize, read the template
configuration (a string, so the `isinstance(..., tuple)` branch is not
taken and `use_default` defaults to `True`), assemble the prompt, select
the provider, call the backend, extract the message, and reject an
empty extraction. -/
def generate_commit_message_steps (env : GenEnv) (diff : String)
    (provider : Option String) (use_default_template : Option Bool)
    (custom_template : Option String) : Except String String := do
  let changes_dict ← analyze_diff diff
  let changes := summarize_changes changes_dict
  let template_config ← env.get_commit_message_template
  let use_default := use_default_template.getD true
  let template :=
    match custom_template with
    | some t => if t = "" then template_config else t
    | none => template_config
  let prompt_content ← create_prompt_content env changes use_default template
  let _pname ← get_provider_name env provider
  let message_json ← env.backend prompt_content
  let extracted ← extract_message_from_raw_response message_json
  if py_strip extracted = "" then .error "Generated commit message is empty"
  else .ok extracted

/-- The fallback string built by the `except` handler of
`generate_commit_message`. -/
def generation_fallback (e : String) : String :=
  "📝 Update files\n\nAn error occurred while generating the commit message. " ++
    "Error details: " ++ e

/-- Embeds `generate_commit_message`: the whole body is wrapped in
`try/except Exception`, so any raising step (or an empty extracted
message) produces the fallback string instead of propagating. -/
def generate_commit_message (env : GenEnv) (diff : String)
    (provider : Option String) (use_default_template : Option Bool)
    (custom_template : Option String) : String :=
  match generate_commit_message_steps env diff provider use_default_template
      custom_template with
  | .ok m => m
  | .error e => generation_fallback e

/-- A concrete environment for witnesses: every configuration getter
succeeds with the defaults, there are no template files, and the
backend's response is the given one. -/
def test_env (response : Except String String) : GenEnv :=
  { get_conventional_commit_types :=
      .ok DEFAULT_COMMIT_CONFIG.conventionalCommitTypes
    get_ai_provider := .ok "ollama"
    get_commit_message_template := .ok ""
    template_file := fun _ => none
    ollama_wrap := fun t => t
    provider_setup := .ok ()
    backend := fun _ => response }

example :
    generate_commit_message (test_env (.error "boom")) "" none (some false)
      (some "hello") =
    "📝 Update files\n\nAn error occurred while generating the commit message. Error details: boom" := by
  decide

example :
    generate_commit_message (test_env (.ok "fix: y")) "" none (some false)
      (some "hello") = "fix: y" := by decide

/-! ## Claim theorems -/

/-- C1: The round-trip between the Diff Extractor and the Diff
Classifier FAILS on the code: for the staged files
`[(A, "a.py"), (M, "b.py")]` (none ignored), `analyze_diff` applied to
the git diff text classifies BOTH files as "added" — the scan loop
never resets `current_status` between file records, so the second
file's `index` header cannot set "modified".  The claim requires one
"added" entry for a.py and one "modified" entry for b.py. -/
theorem analyze_diff_status_leak :
    analyze_diff (git_full_diff [⟨"A", "a.py"⟩, ⟨"M", "b.py"⟩]) =
      .ok [("added",
             [⟨"a.py", "--- /dev/null\n+++ b/a.py\n@@ -0,0 +1 @@\n+content"⟩,
              ⟨"b.py", "--- a/b.py\n+++ b/b.py\n@@ -1 +1 @@\n-old\n+new"⟩]),
           ("modified", []), ("deleted", []), ("renamed", [])] := by decide

/-- C2 counterexample: in the spec's Scenario A — staged files
`[(A, "a.py"), (M, "b.md"), (D, "c.lock")]`, ignore patterns
`{"*.lock"}` — `get_diff` returns an EMPTY ignored list, not
`["c.lock"]`: `should_ignore` is called with the staged files
themselves, and a staged path is never ignored. -/
theorem get_diff_scenarioA_ignored_empty :
    ((GitDiffAnalyzer.init ["*.lock"]
        [⟨"A", "a.py"⟩, ⟨"M", "b.md"⟩, ⟨"D", "c.lock"⟩]).get_diff
      (git_full_diff [⟨"A", "a.py"⟩, ⟨"M", "b.md"⟩, ⟨"D", "c.lock"⟩])).2 = [] ∧
    ([] : List String) ≠ ["c.lock"] := by
  constructor
  · decide
  · decide

/-- C3 counterexample: `analyze_diff` does not parse the
`File:`/`Status:` framing the claim describes: on input
`"File: a.py\nStatus: A\n@@ -0,0 +1 @@\n+x"` it produces NO classified
record at all (every category list is empty), while the claim requires
a record for `a.py` with category "added". -/
theorem analyze_diff_no_file_status_framing :
    analyze_diff "File: a.py\nStatus: A\n@@ -0,0 +1 @@\n+x" =
      .ok [("added", []), ("modified", []), ("deleted", []), ("renamed", [])] := by
  decide

/-- C4: a path that is among the staged files' paths is never ignored,
whatever the patterns (`should_ignore` returns `False` before
consulting any pattern). -/
theorem should_ignore_staged_wins (path : String) (patterns : List String)
    (staged : List StagedFile) (h : path ∈ staged.map (·.file_path)) :
    should_ignore path patterns staged = false := by
  simp [should_ignore, h]

/-- Witness for C4 at Scenario D's shape: `c.lock` is staged and
matches `*.lock`, and `should_ignore` returns false. -/
theorem should_ignore_staged_wins_witness :
    "c.lock" ∈ ([⟨"D", "c.lock"⟩] : List StagedFile).map (·.file_path) ∧
    should_ignore "c.lock" ["*.lock"] [⟨"D", "c.lock"⟩] = false :=
  ⟨by decide, should_ignore_staged_wins "c.lock" ["*.lock"] [⟨"D", "c.lock"⟩] (by decide)⟩

/-- C5 counterexample: a status line whose status code is invalid
(here `"Z\tfoo.py"`) is NOT skipped with a warning — the pydantic
validator raises and the raised error aborts the whole collection, so
the well-formed line `"A\tok.py"` is lost too. -/
theorem get_staged_files_invalid_status_aborts :
    get_staged_files ["Z\tfoo.py", "A\tok.py"] =
      .error "Input should be \x27A\x27, \x27M\x27, \x27D\x27 or \x27R100\x27" := by
  decide

/-- C6 counterexample: on unparsable garbage (`"!!!"`) the Response
Extractor returns the garbage text itself — not a generic
"update files" placeholder — and on the well-formed JSON object
`{"title": 5}` it raises a `TypeError` instead of returning at all
(while a sliceable list title, `{"title": ["a"]}`, is rendered and
returned, not raised on). -/
theorem extract_message_garbage_not_placeholder :
    extract_message_from_raw_response "!!!" = .ok "!!!" ∧
    "!!!" ≠ "📝 Update files" ∧
    extract_message_from_raw_response "\x7b\"title\": 5\x7d" =
      .error "TypeError: object is not subscriptable" ∧
    extract_message_from_raw_response "\x7b\"title\": [\"a\"]\x7d" =
      .ok "[\x27a\x27]\n\nChanges were made to the codebase." := by
  refine ⟨by decide, by decide, by decide, by decide⟩

/-- C7: Scenario B — the fenced JSON response yields a message that
starts with "fix: x", contains the line "🐛 Bug:", contains
"- fixed y", and ends with "done". -/
theorem extract_message_scenarioB :
    extract_message_from_raw_response
        "```json \x7b\"title\":\"fix: x\",\"body\":\x7b\"Bug\":\x7b\"emoji\":\"🐛\",\"changes\":[\"fixed y\"]\x7d\x7d,\"summary\":\"done\"\x7d ```" =
      .ok "fix: x\n\n🐛 Bug:\n- fixed y\n\ndone" ∧
    py_startswith "fix: x\n\n🐛 Bug:\n- fixed y\n\ndone" "fix: x" = true ∧
    "🐛 Bug:" ∈ py_split "fix: x\n\n🐛 Bug:\n- fixed y\n\ndone" "\n" ∧
    "- fixed y" ∈ py_split "fix: x\n\n🐛 Bug:\n- fixed y\n\ndone" "\n" ∧
    py_endswith "fix: x\n\n🐛 Bug:\n- fixed y\n\ndone" "done" = true := by
  refine ⟨by decide, by decide, by decide, by decide, by decide⟩

/-- A sixty-character title, used to exhibit the truncation length. -/
def title60 : String := "feat: a very long commit title that keeps going and going xx"

/-- C9 counterexample: `analyze_diff` does not return the
four-category mapping for EVERY input: on
`"diff --git a/x b/x"` (a file record whose status is never set) it
raises `KeyError` instead of returning a mapping. -/
theorem analyze_diff_keyerror_on_missing_status :
    analyze_diff "diff --git a/x b/x" = .error "KeyError: " := by decide

/-- C8 counterexample: the rendered title is truncated to the fixed
length 50 of `commit_data.get('title', 'Update files')[:50]`, NOT to
the configured maximum length (`commit.maxLength`, 72 by default):
for a 60-character title the configured truncation would keep all 60
characters, but the rendered message keeps only 50. -/
theorem format_commit_message_fixed_50_not_configured :
    title60.data.length = 60 ∧
    format_commit_message (.obj [("title", .str title60), ("summary", .str "s")]) =
      .ok (py_take title60 50 ++ "\n\ns") ∧
    get_max_message_length DEFAULT_COMMIT_CONFIG = 72 ∧
    py_take title60 (get_max_message_length DEFAULT_COMMIT_CONFIG) = title60 ∧
    py_take title60 50 ≠ title60 := by
  refine ⟨by decide, by decide, by decide, by decide, by decide⟩

/-- C2 amended: `get_diff` never filters the diff text and never
ignores anything: for every pattern set and staged-file list it returns
the full diff unchanged together with an EMPTY ignored list, because
every path it tests is itself among the staged files and
`should_ignore` never ignores a staged path.  (In particular, in
Scenario A the ignored list is `[]`, not `["c.lock"]`, and the
partition is the trivial one: every staged file stays in the diff.) -/
theorem get_diff_unfiltered_ignored_empty (patterns : List String)
    (staged : List StagedFile) (full_diff : String) :
    (GitDiffAnalyzer.init patterns staged).get_diff full_diff = (full_diff, []) := by
  unfold GitDiffAnalyzer.get_diff GitDiffAnalyzer.init
  refine Prod.ext rfl ?_
  rw [List.filterMap_eq_nil_iff]
  intro f hf
  rw [should_ignore_staged_wins f.file_path _ staged
    (List.mem_map_of_mem (·.file_path) hf)]
  rfl

/-- C6 amended: whenever the (fence-stripped, backtick-stripped)
response fails to parse as JSON, the Response Extractor returns without
raising — but the value it returns on garbage is derived from the
input text itself (`scan_fallback`), not a fixed "update files"
placeholder; and when the JSON parse succeeds on an object whose title
is unsliceable (e.g. a number) the extractor can raise (see the
counterexample). -/
theorem extract_message_ok_when_json_fails (raw : String)
    (h : json_loads (py_strip_char (strip_code_fences raw) backtickChar) = none) :
    ∃ m, extract_message_from_raw_response raw = .ok m := by
  refine ⟨scan_fallback (py_strip_char (strip_code_fences raw) backtickChar), ?_⟩
  simp [extract_message_from_raw_response, h]

/-- Witness for C6 at the garbage input `"lorem ipsum"`. -/
theorem extract_message_ok_when_json_fails_witness :
    json_loads (py_strip_char (strip_code_fences "lorem ipsum") backtickChar) = none ∧
    ∃ m, extract_message_from_raw_response "lorem ipsum" = .ok m :=
  have hn : json_loads (py_strip_char (strip_code_fences "lorem ipsum") backtickChar) = none := by
    rw [← Option.isNone_iff_eq_none]; decide
  ⟨hn, extract_message_ok_when_json_fails "lorem ipsum" hn⟩

/-- Inversion of an `Except` bind that ends in `ok`. -/
theorem except_bind_ok {ε α β : Type} (x : Except ε α) (f : α → Except ε β) (b : β)
    (h : x >>= f = .ok b) : ∃ a, x = .ok a ∧ f a = .ok b := by
  cases x with
  | ok a => exact ⟨a, rfl, h⟩
  | error e => simp [Bind.bind, Except.bind] at h

/-- `_append_change` preserves the key list of the changes dict. -/
theorem append_change_keys (changes : ChangesDict) (st f : String)
    (content : List String) (m : ChangesDict)
    (h : append_change changes st f content = .ok m) :
    m.map Prod.fst = changes.map Prod.fst := by
  unfold append_change at h
  split at h
  · cases h
    rw [List.map_map]
    apply List.map_congr_left
    intro kv _
    by_cases hk : kv.1 = st <;> simp [hk]
  · cases h

/-- The scan loop of `analyze_diff` preserves the key list of the
changes dict whenever it returns one. -/
theorem analyze_loop_keys (lines : List String) :
    ∀ (f st : String) (c : List String) (ch m : ChangesDict),
      analyze_diff_loop lines f st c ch = .ok m →
      m.map Prod.fst = ch.map Prod.fst := by
  induction lines with
  | nil =>
    intro f st c ch m h
    unfold analyze_diff_loop at h
    split at h
    · exact append_change_keys ch st f c m h
    · cases h; rfl
  | cons l rest ih =>
    intro f st c ch m h
    unfold analyze_diff_loop at h
    split at h
    · split at h
      · obtain ⟨ch2, h1, h2⟩ := except_bind_ok _ _ _ h
        exact (ih _ _ _ _ _ h2).trans (append_change_keys ch st f c ch2 h1)
      · exact ih _ _ _ _ _ h
    · split at h
      · exact ih _ _ _ _ _ h
      · split at h
        · exact ih _ _ _ _ _ h
        · split at h
          · exact ih _ _ _ _ _ h
          · split at h
            · exact ih _ _ _ _ _ h
            · exact ih _ _ _ _ _ h

/-- C9 amended: WHENEVER `analyze_diff` returns a mapping (rather than
raising `KeyError`, see the counterexample) its key set is exactly
added/modified/deleted/renamed, in that insertion order. -/
theorem analyze_diff_four_keys (d : String) (m : ChangesDict)
    (h : analyze_diff d = .ok m) :
    m.map Prod.fst = ["added", "modified", "deleted", "renamed"] := by
  have hk := analyze_loop_keys (py_split d "\n") "" "" [] initial_changes m h
  simpa [initial_changes] using hk

/-- Witness for C9 at the empty diff text. -/
theorem analyze_diff_four_keys_witness :
    analyze_diff "" = .ok initial_changes ∧
    initial_changes.map Prod.fst = ["added", "modified", "deleted", "renamed"] :=
  ⟨by decide, analyze_diff_four_keys "" initial_changes (by decide)⟩

/-- Does the line's first tab-separated field carry an allowed status
code (vacuously true for lines with fewer than two fields)? -/
def first_field_ok (l : String) : Bool :=
  match py_split l "\t" with
  | s :: _ :: _ => decide (s ∈ allowed_statuses)
  | _ => true

/-- C5 amended: a status line that does not split into at least two
tab-separated fields is skipped with a warning and the collection
continues; and PROVIDED every line with at least two fields carries an
allowed status code, the collection succeeds and returns exactly the
`StagedFile`s of those lines (a line with an invalid status code
instead aborts the whole collection, see the counterexample). -/
theorem get_staged_files_skips_short_lines (lines : List String)
    (h : ∀ l ∈ lines, first_field_ok l = true) :
    get_staged_files lines =
      .ok (lines.filterMap (fun l =>
             match py_split l "\t" with
             | s :: p :: _ => some ⟨s, p⟩
             | _ => none),
           (lines.filter (fun l =>
             match py_split l "\t" with
             | _ :: _ :: _ => false
             | _ => true)).map staged_warning) := by
  induction lines with
  | nil => rfl
  | cons l rest ih =>
    have hrest := ih fun x hx => h x (List.mem_cons_of_mem _ hx)
    cases hsp : py_split l "\t" with
    | nil =>
      simp only [get_staged_files, hsp, hrest, List.filterMap_cons,
        List.filter_cons]
      simp [hsp, Bind.bind, Except.bind]
    | cons s t =>
      cases t with
      | nil =>
        simp only [get_staged_files, hsp, hrest, List.filterMap_cons,
          List.filter_cons]
        simp [hsp, Bind.bind, Except.bind]
      | cons p r =>
        have hs0 := h l (List.mem_cons_self l rest)
        rw [first_field_ok, hsp] at hs0
        have hs := of_decide_eq_true hs0
        simp only [get_staged_files, hsp, hrest, List.filterMap_cons,
          List.filter_cons]
        simp [hsp, mk_staged_file, validate_status, hs, Bind.bind, Except.bind]

/-- Witness for C5: one well-formed line, one short line, one rename
line with three fields. -/
theorem get_staged_files_skips_short_lines_witness :
    get_staged_files ["A\ta.py", "garbage", "R100\told.py\tnew.py"] =
      .ok ([⟨"A", "a.py"⟩, ⟨"R100", "old.py"⟩], [staged_warning "garbage"]) := by
  have h := get_staged_files_skips_short_lines
    ["A\ta.py", "garbage", "R100\told.py\tnew.py"] (by decide)
  exact h.trans (by decide)

/-- Is the line free of every marker prefix `analyze_diff` reacts to
(so that the scan accumulates it as content)? -/
def plain_content_line (b : String) : Bool :=
  !(py_startswith b "diff --git") && !(py_startswith b "new file") &&
  !(py_startswith b "deleted file") && !(py_startswith b "rename from") &&
  !(py_startswith b "index")

/-- Once a record is open, a run of plain content lines is accumulated
verbatim and flushed at the end of the scan. -/
theorem analyze_loop_accumulates (body : List String) :
    ∀ (acc : List String) (p st : String) (changes : ChangesDict),
      (∀ b ∈ body, plain_content_line b = true) →
      p ≠ "" →
      analyze_diff_loop body p st acc changes =
        append_change changes st p (acc ++ body) := by
  induction body with
  | nil =>
    intro acc p st changes _ hp
    simp [analyze_diff_loop, hp]
  | cons b rest ih =>
    intro acc p st changes hb hp
    have h1 := hb b (List.mem_cons_self b rest)
    rw [plain_content_line] at h1
    simp only [Bool.and_eq_true, Bool.not_eq_true'] at h1
    obtain ⟨⟨⟨⟨e1, e2⟩, e3⟩, e4⟩, e5⟩ := h1
    rw [analyze_diff_loop]
    simp only [e1, e2, e3, e4, e5, Bool.false_eq_true, if_false]
    rw [ih (acc ++ [b]) p st changes (fun x hx => hb x (List.mem_cons_of_mem _ hx)) hp]
    simp

/-- The category the scan of `analyze_diff` assigns for a status-marker
line met while no category is set yet, mirroring the branch order of
the source: any line starting `new file` gives "added", `deleted file`
"deleted", `rename from` "renamed", and otherwise a line starting
`index` gives "modified" (the guarded default). -/
def marker_category (mk : String) : Option String :=
  if py_startswith mk "new file" then some "added"
  else if py_startswith mk "deleted file" then some "deleted"
  else if py_startswith mk "rename from" then some "renamed"
  else if py_startswith mk "index" then some "modified"
  else none

/-- Once a record is open, a run of plain content lines followed by a
`diff --git` line is flushed at that line, and the scan continues with
the new record's file name (and the old status, never reset by the
source). -/
theorem analyze_loop_flushes (body0 : List String) :
    ∀ (acc : List String) (p st l1 : String) (rest : List String)
      (changes : ChangesDict),
      (∀ b ∈ body0, plain_content_line b = true) →
      p ≠ "" →
      py_startswith l1 "diff --git" = true →
      analyze_diff_loop (body0 ++ l1 :: rest) p st acc changes =
        (append_change changes st p (acc ++ body0) >>= fun ch2 =>
          analyze_diff_loop rest ((py_split l1 " b/").getLastD "") st [] ch2) := by
  induction body0 with
  | nil =>
    intro acc p st l1 rest changes _ hp hl1
    simp [analyze_diff_loop, hl1, hp, Bind.bind]
  | cons b t ih =>
    intro acc p st l1 rest changes hb hp hl1
    have h1 := hb b (List.mem_cons_self b t)
    rw [plain_content_line] at h1
    simp only [Bool.and_eq_true, Bool.not_eq_true'] at h1
    obtain ⟨⟨⟨⟨e1, e2⟩, e3⟩, e4⟩, e5⟩ := h1
    rw [List.cons_append, analyze_diff_loop]
    simp only [e1, e2, e3, e4, e5, Bool.false_eq_true, if_false]
    rw [ih (acc ++ [b]) p st l1 rest changes
      (fun x hx => hb x (List.mem_cons_of_mem _ hx)) hp hl1]
    simp

/-- C3 amended: the Diff Extractor adds no framing of its own (it
returns the raw `git diff --cached` text, see C2's theorem), and
`analyze_diff` parses git's NATIVE framing, not `File:`/`Status:`
lines.  Part one: a line starting with `diff --git` opens a record
named by the text after `" b/"`; the following marker line sets the
record's category — any line starting `new file` gives "added",
`deleted file` "deleted", `rename from` "renamed", and `index`
"modified" when no category is set yet — all following plain lines
accumulate as the record's content, and the final record is flushed
when the scan ends.  Part two: a later line starting `diff --git`
flushes the open record and opens the next one (shown on an added-file
block followed by a deleted-file block). -/
theorem analyze_diff_git_native_framing :
    (∀ (diff l0 mk p cat : String) (body : List String),
      py_split diff "\n" = l0 :: mk :: body →
      py_startswith l0 "diff --git" = true →
      (py_split l0 " b/").getLastD "" = p →
      p ≠ "" →
      py_startswith mk "diff --git" = false →
      marker_category mk = some cat →
      (∀ b ∈ body, plain_content_line b = true) →
      analyze_diff diff =
        .ok (initial_changes.map fun kv =>
          if kv.1 = cat then
            (kv.1, [⟨p, py_strip (py_join_with "\n" body)⟩])
          else kv)) ∧
    (∀ (diff l0 mk0 p0 l1 mk1 p1 : String) (body0 body1 : List String),
      py_split diff "\n" = l0 :: mk0 :: (body0 ++ l1 :: mk1 :: body1) →
      py_startswith l0 "diff --git" = true →
      (py_split l0 " b/").getLastD "" = p0 →
      p0 ≠ "" →
      py_startswith mk0 "diff --git" = false →
      py_startswith mk0 "new file" = true →
      (∀ b ∈ body0, plain_content_line b = true) →
      py_startswith l1 "diff --git" = true →
      (py_split l1 " b/").getLastD "" = p1 →
      p1 ≠ "" →
      py_startswith mk1 "diff --git" = false →
      py_startswith mk1 "new file" = false →
      py_startswith mk1 "deleted file" = true →
      (∀ b ∈ body1, plain_content_line b = true) →
      analyze_diff diff =
        .ok [("added", [⟨p0, py_strip (py_join_with "\n" body0)⟩]),
             ("modified", []),
             ("deleted", [⟨p1, py_strip (py_join_with "\n" body1)⟩]),
             ("renamed", [])]) := by
  constructor
  · intro diff l0 mk p cat body hsplit hl0 hp hpne hmk hcat hbody
    rw [List.getLastD_eq_getLast?] at hp
    rw [analyze_diff, hsplit]
    simp only [analyze_diff_loop]
    rw [marker_category] at hcat
    split_ifs at hcat with h1 h2 h3 h4
    · injection hcat with hc; subst hc
      simp [hl0, hp, hmk, h1]
      rw [analyze_loop_accumulates body [] p "added" initial_changes hbody hpne]
      simp [append_change, initial_changes]
    · injection hcat with hc; subst hc
      simp [hl0, hp, hmk, h1, h2]
      rw [analyze_loop_accumulates body [] p "deleted" initial_changes hbody hpne]
      simp [append_change, initial_changes]
    · injection hcat with hc; subst hc
      simp [hl0, hp, hmk, h1, h2, h3]
      rw [analyze_loop_accumulates body [] p "renamed" initial_changes hbody hpne]
      simp [append_change, initial_changes]
    · injection hcat with hc; subst hc
      simp [hl0, hp, hmk, h1, h2, h3, h4]
      rw [analyze_loop_accumulates body [] p "modified" initial_changes hbody hpne]
      try simp [append_change, initial_changes]
  · intro diff l0 mk0 p0 l1 mk1 p1 body0 body1 hsplit hl0 hp0 hp0ne hmk0dg
      hmk0nf hbody0 hl1 hp1 hp1ne hmk1dg hmk1nf hmk1df hbody1
    rw [List.getLastD_eq_getLast?] at hp0 hp1
    rw [analyze_diff, hsplit]
    simp only [analyze_diff_loop]
    simp [hl0, hp0, hmk0dg, hmk0nf]
    rw [analyze_loop_flushes body0 [] p0 "added" l1 (mk1 :: body1)
      initial_changes hbody0 hp0ne hl1]
    simp only [List.nil_append, append_change, initial_changes]
    simp only [List.lookup, Option.isSome, Bind.bind, Except.bind]
    simp [analyze_diff_loop, hp1, hmk1dg, hmk1nf, hmk1df]
    rw [analyze_loop_accumulates body1 [] p1 "deleted" _ hbody1 hp1ne]
    simp [append_change]

/-- Witness for C3: a renamed-file block settles part one at a
`rename from` marker; an added-file block followed by a deleted-file
block settles part two. -/
theorem analyze_diff_git_native_framing_witness :
    analyze_diff "diff --git a/c.py b/c.py\nrename from b.py\nrename to c.py" =
      .ok [("added", []), ("modified", []), ("deleted", []),
           ("renamed", [⟨"c.py", "rename to c.py"⟩])] ∧
    analyze_diff
        "diff --git a/a.py b/a.py\nnew file mode 100644\n+x\ndiff --git a/d.py b/d.py\ndeleted file mode 100644\n-y" =
      .ok [("added", [⟨"a.py", "+x"⟩]), ("modified", []),
           ("deleted", [⟨"d.py", "-y"⟩]), ("renamed", [])] := by
  constructor
  · have h := analyze_diff_git_native_framing.1
      "diff --git a/c.py b/c.py\nrename from b.py\nrename to c.py"
      "diff --git a/c.py b/c.py" "rename from b.py" "c.py" "renamed"
      ["rename to c.py"]
      (by decide) (by decide) (by decide) (by decide) (by decide) (by decide)
      (by decide)
    exact h.trans (by decide)
  · have h := analyze_diff_git_native_framing.2
      "diff --git a/a.py b/a.py\nnew file mode 100644\n+x\ndiff --git a/d.py b/d.py\ndeleted file mode 100644\n-y"
      "diff --git a/a.py b/a.py" "new file mode 100644" "a.py"
      "diff --git a/d.py b/d.py" "deleted file mode 100644" "d.py"
      ["+x"] ["-y"]
      (by decide) (by decide) (by decide) (by decide) (by decide) (by decide)
      (by decide) (by decide) (by decide) (by decide) (by decide) (by decide)
      (by decide) (by decide)
    exact h.trans (by decide)

/-- Rendering a JSON string is the string itself. -/
theorem pyStr_str (s : String) : pyStr (.str s) = s := rfl

/-- `strOfChars` turns list append into string append. -/
theorem strOfChars_append (l1 l2 : List Char) :
    strOfChars (l1 ++ l2) = strOfChars l1 ++ strOfChars l2 := rfl

/-- `strOfChars` is a left inverse of `String.data`. -/
theorem strOfChars_data (s : String) : strOfChars s.data = s := rfl

/-- Intercalating with the empty separator is flattening. -/
theorem intercalate_nil_flatten (l : List (List Char)) :
    List.intercalate [] l = l.flatten := by
  induction l with
  | nil => rfl
  | cons a t ih =>
    cases t with
    | nil => simp [List.intercalate, List.intersperse]
    | cons b t2 =>
      simp only [List.intercalate, List.intersperse] at ih ⊢
      simp_all

/-- Joining with the empty separator, cons case. -/
theorem py_join_empty_cons (x : String) (xs : List String) :
    py_join_with "" (x :: xs) = x ++ py_join_with "" xs := by
  rw [py_join_with, py_join_with, List.map_cons]
  show strOfChars (List.intercalate [] (x.data :: xs.map String.data)) = _
  rw [intercalate_nil_flatten, intercalate_nil_flatten, List.flatten_cons,
    strOfChars_append, strOfChars_data]

/-- String append is associative. -/
theorem str_append_assoc (a b c : String) : a ++ b ++ c = a ++ (b ++ c) := by
  apply String.ext
  simp [String.data_append, List.append_assoc]

/-- Construction and rendering of JSON strings cancel. -/
theorem pyStr_comp_str : pyStr ∘ Json.str = id := funext pyStr_str

/-- Rendering-and-newline over constructed JSON strings. -/
theorem pyStr_newline_comp_str :
    (fun i => pyStr i ++ "\n") ∘ Json.str = (fun i : String => i ++ "\n") :=
  funext fun a => by simp [pyStr_str]

/-- One keyed body category renders as its symbol, name, and bullet
lines. -/
theorem render_category_keyed (c e : String) (chs : List String) :
    render_category c (.obj [("emoji", .str e), ("changes", .arr (chs.map .str))]) =
      .ok (e ++ " " ++ c ++ ":\n" ++
        py_join_with "" (chs.map fun ch => "- " ++ ch ++ "\n")) := by
  simp [render_category, py_iterate, List.lookup, pyStr_str, pyStr_comp_str,
    Bind.bind, Except.bind]

/-- The keyed body loop renders every category in order. -/
theorem render_categories_keyed (cats : List (String × String × List String)) :
    render_categories (cats.map fun c =>
      (c.1, Json.obj [("emoji", .str c.2.1), ("changes", .arr (c.2.2.map .str))])) =
    .ok (py_join_with "" (cats.map fun c =>
      c.2.1 ++ " " ++ c.1 ++ ":\n" ++
      py_join_with "" (c.2.2.map fun ch => "- " ++ ch ++ "\n") ++ "\n")) := by
  induction cats with
  | nil => rfl
  | cons c rest ih =>
    simp only [List.map_cons, render_categories, render_category_keyed, ih,
      Bind.bind, Except.bind, py_join_empty_cons]
    try simp [str_append_assoc]

/-- C8 amended: when the structured parse succeeds on an object with a
string title, a body of any of the three accepted shapes, and a string
summary, the rendered message is: the title truncated to the FIXED
length 50 (the configured maximum header length is not consulted — see
the counterexample), a blank line, the rendered body, a blank line, and
the summary. -/
theorem format_commit_message_three_body_shapes :
    (∀ (t s : String) (cats : List (String × String × List String)),
      format_commit_message (.obj
        [("title", .str t),
         ("body", .obj (cats.map fun c =>
            (c.1, Json.obj [("emoji", .str c.2.1),
                            ("changes", .arr (c.2.2.map Json.str))]))),
         ("summary", .str s)]) =
      .ok (py_strip (py_take t 50 ++ "\n\n" ++
        py_join_with "" (cats.map fun c =>
          c.2.1 ++ " " ++ c.1 ++ ":\n" ++
          py_join_with "" (c.2.2.map fun ch => "- " ++ ch ++ "\n") ++ "\n") ++
        s ++ "\n"))) ∧
    (∀ (t s : String) (items : List String),
      format_commit_message (.obj
        [("title", .str t),
         ("body", .arr (items.map Json.str)),
         ("summary", .str s)]) =
      .ok (py_strip (py_take t 50 ++ "\n\n" ++
        (py_join_with "" (items.map fun i => i ++ "\n") ++ "\n") ++
        s ++ "\n"))) ∧
    (∀ (t s b : String),
      format_commit_message (.obj
        [("title", .str t),
         ("body", .str b),
         ("summary", .str s)]) =
      .ok (py_strip (py_take t 50 ++ "\n\n" ++ (b ++ "\n\n") ++ s ++ "\n"))) := by
  refine ⟨?_, ?_, ?_⟩
  · intro t s cats
    simp [format_commit_message, List.lookup, render_categories_keyed,
      pyStr_str, Bind.bind, Except.bind]
  · intro t s items
    simp [format_commit_message, List.lookup, pyStr_newline_comp_str,
      pyStr_str, Bind.bind, Except.bind]
  · intro t s b
    simp [format_commit_message, List.lookup, pyStr_str, Bind.bind, Except.bind]

/-- When the pipeline's try-block succeeds, the accepted message has
nonempty strip (the empty-message guard raised otherwise). -/
theorem steps_ok_strip_ne (env : GenEnv) (diff : String) (pr : Option String)
    (udt : Option Bool) (ct : Option String) (m : String)
    (h : generate_commit_message_steps env diff pr udt ct = .ok m) :
    py_strip m ≠ "" := by
  unfold generate_commit_message_steps at h
  obtain ⟨a1, -, h⟩ := except_bind_ok _ _ _ h
  obtain ⟨a2, -, h⟩ := except_bind_ok _ _ _ h
  obtain ⟨a3, -, h⟩ := except_bind_ok _ _ _ h
  obtain ⟨a4, -, h⟩ := except_bind_ok _ _ _ h
  obtain ⟨a5, -, h⟩ := except_bind_ok _ _ _ h
  obtain ⟨a6, -, h⟩ := except_bind_ok _ _ _ h
  split at h
  · cases h
  · next hc => cases h; exact hc

/-- C10: `generate_commit_message` never propagates an exception and
never returns the empty string; whenever any internal step raises (or
the extracted message strips to empty, which the try-block turns into a
raised `ValueError`), the result is the fallback message, which starts
with "📝 Update files" and ends with the error details. -/
theorem generate_commit_message_total (env : GenEnv) (diff : String)
    (provider : Option String) (udt : Option Bool) (ct : Option String) :
    generate_commit_message env diff provider udt ct ≠ "" ∧
    (∀ e, generate_commit_message_steps env diff provider udt ct = .error e →
      generate_commit_message env diff provider udt ct = generation_fallback e ∧
      py_startswith (generation_fallback e) "📝 Update files" = true ∧
      py_endswith (generation_fallback e) e = true) := by
  constructor
  · cases hs : generate_commit_message_steps env diff provider udt ct with
    | ok m =>
      have hm := steps_ok_strip_ne env diff provider udt ct m hs
      simp only [generate_commit_message, hs]
      intro he
      exact hm (by rw [he]; rfl)
    | error e =>
      simp only [generate_commit_message, hs, generation_fallback]
      intro he
      have hd := congrArg String.data he
      simp [String.data_append] at hd
  · intro e he
    have hdata : (generation_fallback e).data =
        ("📝 Update files\n\nAn error occurred while generating the commit message. " ++
          "Error details: ").data ++ e.data := by
      simp [generation_fallback, String.data_append]
    refine ⟨by simp [generate_commit_message, he], ?_, ?_⟩
    · rw [py_startswith, List.isPrefixOf_iff_prefix, hdata]
      exact List.IsPrefix.trans
        (List.isPrefixOf_iff_prefix.mp (by decide)) (List.prefix_append _ _)
    · rw [py_endswith, List.isSuffixOf_iff_suffix, hdata]
      exact List.suffix_append _ _

/-- Witness for C10: a backend that raises leads to the fallback
message. -/
theorem generate_commit_message_total_witness :
    generate_commit_message (test_env (.error "boom")) "" none (some false)
        (some "hello") = generation_fallback "boom" ∧
    py_startswith (generation_fallback "boom") "📝 Update files" = true ∧
    py_endswith (generation_fallback "boom") "boom" = true :=
  (generate_commit_message_total (test_env (.error "boom")) "" none (some false)
    (some "hello")).2 "boom" (by decide)
